import Mathlib

/-!
Shallow embedding of the prompt-to-model chain core of langchain-rust:
src/chain/llm_chain.rs (builder and chain operations) and
src/output_parsers/output_parser.rs (the parser capability).
External collaborators (formatter, model client, error taxonomy, default
parser, call options) are declared in the crate outside these files; they
are modelled from the specification, as marked on each definition.
Async operations are embedded as pure functions into Except, and the lazy
stream of items as a finite list of individually fallible items.
-/

/-- Modelled from the spec: a chat message, a role and content pair
(section 6, formatter capability). -/
structure Message where
  role : String
  content : String
deriving DecidableEq

/-- Prompt arguments: a mapping from variable name to value
(crate type PromptArgs, outside src; spec section 3). -/
abbrev PromptArgs := List (String × String)

/-- Modelled from the spec: a formatter failure (spec section 7, Format). -/
abbrev FormatError := String

/-- Modelled from the spec: a model-client failure (spec section 7, Model). -/
abbrev LLMError := String

/-- Modelled from the spec: a failure of the parse capability
(crate type OutputParserError, outside src; spec section 7, Parse). -/
abbrev OutputParserError := String

/-- Modelled from the spec: the chain error taxonomy (spec section 7).
MissingObject carries the message naming the absent wiring; Format, Model
and Parse wrap the collaborator failures lifted by the question-mark
conversions in the source. -/
inductive ChainError where
  | MissingObject : String → ChainError
  | Format : FormatError → ChainError
  | Model : LLMError → ChainError
  | Parse : OutputParserError → ChainError
deriving DecidableEq

/-- Modelled from the spec: the rendered prompt, whose only required
capability is conversion to an ordered sequence of chat messages
(spec section 3). -/
structure PromptValue where
  to_chat_messages : List Message

/-- Modelled from the spec: the formatter capability FormatPrompter
(crate trait outside src; spec section 6): declared input variables and
fallible rendering of arguments into a prompt. -/
structure FormatPrompter where
  get_input_variables : List String
  format_prompt : PromptArgs → Except FormatError PromptValue

/-- Modelled from the spec: one incremental unit emitted during streaming
(crate type StreamData, outside src; spec section 3). -/
structure StreamData where
  content : String
deriving DecidableEq

/-- Modelled from the spec: the generate result, a record with a generation
string plus further metadata fields that the chain must preserve; the
metadata is abstracted as a single field of arbitrary type μ
(spec section 3). -/
structure GenerateResult (μ : Type) where
  generation : String
  meta : μ
deriving DecidableEq

/-- Modelled from the spec: the model-level option representation that
chain call options convert into (spec section 3). -/
structure LLMOptions where
  fields : List (String × String)
deriving DecidableEq

/-- Modelled from the spec: chain call options, a value object of call-time
tunables, losslessly convertible to model options (crate type
ChainCallOptions, outside src; spec section 3). -/
structure ChainCallOptions where
  fields : List (String × String)
deriving DecidableEq

/-- Modelled from the spec: the lossless conversion from chain call options
to the model client option representation (spec section 4.3). -/
def ChainCallOptions.to_llm_options (o : ChainCallOptions) : LLMOptions :=
  ⟨o.fields⟩

/-- Modelled from the spec: the model client capability (spec section 6):
a one-shot generate, a streaming variant yielding a lazy sequence of
individually fallible items, and a mutator folding options into the
client configuration.  The two behaviours may consult the options folded
so far, and applied_options records the folded options in order, so that
an invocation of the mutator is observable. -/
structure LLM (μ : Type) where
  behavior_generate :
    List LLMOptions → List Message → Except LLMError (GenerateResult μ)
  behavior_stream :
    List LLMOptions → List Message →
      Except LLMError (List (Except LLMError StreamData))
  applied_options : List LLMOptions

/-- Modelled from the spec: the option-merge mutator of the model client
(spec section 6): folds one options value into the configuration. -/
def LLM.add_options {μ : Type} (self : LLM μ) (o : LLMOptions) : LLM μ :=
  { self with applied_options := self.applied_options ++ [o] }

/-- Modelled from the spec: the one-shot generate of the model client,
consulting the options folded so far. -/
def LLM.generate {μ : Type} (self : LLM μ) (msgs : List Message) :
    Except LLMError (GenerateResult μ) :=
  self.behavior_generate self.applied_options msgs

/-- Modelled from the spec: the streaming variant of the model client:
fallible setup, then a sequence of individually fallible items. -/
def LLM.stream {μ : Type} (self : LLM μ) (msgs : List Message) :
    Except LLMError (List (Except LLMError StreamData)) :=
  self.behavior_stream self.applied_options msgs

/-- The parse capability of src/output_parsers/output_parser.rs:
an object with a fallible parse from a raw string to O. -/
structure OutputParser (O : Type) where
  parse : String → Except OutputParserError O

/-- Modelled from the spec: SimpleParser, the default identity variant of
the parse capability (crate type outside src; spec section 4.4): returns
its input unchanged and never fails. -/
def SimpleParser : OutputParser String :=
  ⟨fun s => Except.ok s⟩

/-- LLMChainBuilder of src/chain/llm_chain.rs: optional slots for the
formatter, the model client, the output key, the call options and the
parse capability.  The last slot is named outputParser here; the source
gives it the snake-case version of that name. -/
structure LLMChainBuilder (μ : Type) where
  prompt : Option FormatPrompter
  llm : Option (LLM μ)
  output_key : Option String
  options : Option ChainCallOptions
  outputParser : Option (OutputParser String)

/-- LLMChainBuilder::new: every slot starts unset. -/
def LLMChainBuilder.new {μ : Type} : LLMChainBuilder μ :=
  { prompt := none, llm := none, output_key := none,
    options := none, outputParser := none }

/-- The builder setter for the options slot (named options in the source,
like its field). -/
def LLMChainBuilder.set_options {μ : Type} (self : LLMChainBuilder μ)
    (o : ChainCallOptions) : LLMChainBuilder μ :=
  { self with options := some o }

/-- The builder setter for the prompt slot (named prompt in the source,
like its field). -/
def LLMChainBuilder.set_prompt {μ : Type} (self : LLMChainBuilder μ)
    (p : FormatPrompter) : LLMChainBuilder μ :=
  { self with prompt := some p }

/-- The builder setter for the llm slot (named llm in the source, like its
field). -/
def LLMChainBuilder.set_llm {μ : Type} (self : LLMChainBuilder μ)
    (l : LLM μ) : LLMChainBuilder μ :=
  { self with llm := some l }

/-- The builder setter for the output_key slot (named output_key in the
source, like its field). -/
def LLMChainBuilder.set_output_key {μ : Type} (self : LLMChainBuilder μ)
    (k : String) : LLMChainBuilder μ :=
  { self with output_key := some k }

/-- The builder setter for the parser slot (carrying the source's
snake-case name of outputParser, like its field). -/
def LLMChainBuilder.set_outputParser {μ : Type} (self : LLMChainBuilder μ)
    (p : OutputParser String) : LLMChainBuilder μ :=
  { self with outputParser := some p }

/-- LLMChain of src/chain/llm_chain.rs: one formatter, one model client,
one output key, one parse capability. -/
structure LLMChain (μ : Type) where
  prompt : FormatPrompter
  llm : LLM μ
  output_key : String
  outputParser : OutputParser String

/-- LLMChainBuilder::build: fail with MissingObject when the prompt or the
llm slot is unset; otherwise fold the options (when present) into the
model client, default the output key to the string output, default the
parser to SimpleParser, and return the chain. -/
def LLMChainBuilder.build {μ : Type} (self : LLMChainBuilder μ) :
    Except ChainError (LLMChain μ) :=
  match self.prompt with
  | none => Except.error (ChainError.MissingObject ("Prompt must be set"))
  | some prompt =>
    match self.llm with
    | none => Except.error (ChainError.MissingObject ("LLM must be set"))
    | some llm0 =>
      let llm := match self.options with
        | some options => llm0.add_options (ChainCallOptions.to_llm_options options)
        | none => llm0
      Except.ok
        { prompt := prompt
          llm := llm
          output_key := self.output_key.getD ("output")
          outputParser := self.outputParser.getD SimpleParser }

/-- Chain::get_input_keys for LLMChain: the formatter's declared input
variables. -/
def LLMChain.get_input_keys {μ : Type} (self : LLMChain μ) : List String :=
  self.prompt.get_input_variables

/-- Chain::get_output_keys for LLMChain: the singleton list of the output
key. -/
def LLMChain.get_output_keys {μ : Type} (self : LLMChain μ) : List String :=
  [self.output_key]

/-- Chain::call for LLMChain: format the prompt, generate from the chat
messages, replace the generation field with the parsed generation, return
the mutated result.  Each question-mark conversion of the source appears
as a mapError into the chain taxonomy. -/
def LLMChain.call {μ : Type} (self : LLMChain μ)
    (input_variables : PromptArgs) : Except ChainError (GenerateResult μ) := do
  let prompt ← (self.prompt.format_prompt input_variables).mapError ChainError.Format
  let output ← (self.llm.generate prompt.to_chat_messages).mapError ChainError.Model
  let g ← (self.outputParser.parse output.generation).mapError ChainError.Parse
  Except.ok { output with generation := g }

/-- Chain::invoke for LLMChain: format the prompt, generate, return the
generation field unchanged; the parse capability is not used. -/
def LLMChain.invoke {μ : Type} (self : LLMChain μ)
    (input_variables : PromptArgs) : Except ChainError String := do
  let prompt ← (self.prompt.format_prompt input_variables).mapError ChainError.Format
  let output ← (self.llm.generate prompt.to_chat_messages).mapError ChainError.Model
  Except.ok output.generation

/-- Chain::stream for LLMChain: format the prompt and obtain the model
stream eagerly; on success return the same item sequence with each item's
error re-typed from the model taxonomy into the chain taxonomy. -/
def LLMChain.stream {μ : Type} (self : LLMChain μ)
    (input_variables : PromptArgs) :
    Except ChainError (List (Except ChainError StreamData)) := do
  let prompt ← (self.prompt.format_prompt input_variables).mapError ChainError.Format
  let llm_stream ← (self.llm.stream prompt.to_chat_messages).mapError ChainError.Model
  Except.ok (llm_stream.map (Except.mapError ChainError.Model))

/-! Mock collaborators used by the concrete witnesses. -/

/-- A mock formatter declaring one variable and always rendering the empty
message list. -/
def mockPrompter : FormatPrompter :=
  ⟨["nombre"], fun _ => Except.ok ⟨[]⟩⟩

/-- A mock parse capability that uppercases its input character by
character. -/
def upperProc : OutputParser String :=
  ⟨fun s => Except.ok (String.mk (s.data.map Char.toUpper))⟩

/-- A mock model client returning a fixed generate result whose metadata is
a token count. -/
def mockLLM (r : GenerateResult Nat) : LLM Nat :=
  ⟨fun _ _ => Except.ok r, fun _ _ => Except.ok [], []⟩

/-- A mock chain wiring the mock formatter, a mock model returning the
string abc with seven tokens, and the uppercasing parse capability. -/
def mockChainUpper : LLMChain Nat :=
  ⟨mockPrompter, mockLLM ⟨"abc", 7⟩, "output", upperProc⟩

/-- C1: when formatting, the model and the parse all succeed, call returns
the model result with its generation field replaced by the parsed
generation, while invoke returns the raw generation with the parse
capability not applied. -/
theorem call_applies_parse_invoke_does_not {μ : Type} (c : LLMChain μ)
    (args : PromptArgs) (p : PromptValue) (r : GenerateResult μ) (g : String)
    (hf : c.prompt.format_prompt args = Except.ok p)
    (hg : c.llm.generate p.to_chat_messages = Except.ok r)
    (hp : c.outputParser.parse r.generation = Except.ok g) :
    c.call args = Except.ok { r with generation := g } ∧
    c.invoke args = Except.ok r.generation := by
  constructor <;>
    simp [LLMChain.call, LLMChain.invoke, hf, hg, hp, Except.mapError,
      Except.instMonad, Except.bind]

/-- Witness for C1 at a concrete chain: an uppercasing parse capability and
a mock model returning the string abc give a call generation of ABC while
invoke returns abc unchanged. -/
theorem call_applies_parse_invoke_does_not_witness :
    mockChainUpper.call [] = Except.ok ⟨"ABC", 7⟩ ∧
    mockChainUpper.invoke [] = Except.ok ("abc") := by
  have h := call_applies_parse_invoke_does_not mockChainUpper []
    ⟨[]⟩ ⟨"abc", 7⟩ ("ABC") rfl rfl rfl
  exact h


/-- A mock model client for the builder witnesses, echoing a fixed result
and an empty stream. -/
def plainLLM : LLM Nat := mockLLM ⟨"abc", 7⟩

/-- The empty builder at the metadata type of the mocks, each slot unset. -/
def emptyB : LLMChainBuilder Nat := LLMChainBuilder.new

/-- C2: build fails with MissingObject naming the prompt when the prompt
slot is unset, fails with MissingObject naming the llm when the prompt is
set but the llm slot is unset, and succeeds whenever both are set,
regardless of the other slots. -/
theorem build_validates_wiring {μ : Type} (b : LLMChainBuilder μ) :
    (b.prompt = none →
      b.build = Except.error (ChainError.MissingObject ("Prompt must be set"))) ∧
    (∀ p, b.prompt = some p → b.llm = none →
      b.build = Except.error (ChainError.MissingObject ("LLM must be set"))) ∧
    (∀ p l, b.prompt = some p → b.llm = some l → ∃ c, b.build = Except.ok c) := by
  refine ⟨fun h => ?_, fun p hp hl => ?_, fun p l hp hl => ?_⟩
  · simp [LLMChainBuilder.build, h]
  · simp [LLMChainBuilder.build, hp, hl]
  · simp [LLMChainBuilder.build, hp, hl]

/-- Whether an Except value is a success, used to state witnesses without
binders. -/
def exceptOk {ε α : Type} : Except ε α → Bool
  | Except.ok _ => true
  | Except.error _ => false

/-- Witness for C2 at concrete builders: the empty builder fails on the
prompt, the builder with only a prompt fails on the llm, and the builder
with prompt and llm succeeds. -/
theorem build_validates_wiring_witness :
    emptyB.build = Except.error (ChainError.MissingObject ("Prompt must be set")) ∧
    (emptyB.set_prompt mockPrompter).build =
        Except.error (ChainError.MissingObject ("LLM must be set")) ∧
    exceptOk ((emptyB.set_prompt mockPrompter).set_llm plainLLM).build = true :=
  ⟨(build_validates_wiring emptyB).1 rfl,
    (build_validates_wiring _).2.1 mockPrompter rfl rfl,
    Exists.elim ((build_validates_wiring _).2.2 mockPrompter plainLLM rfl rfl)
      (fun c hc => by rw [hc]; rfl)⟩

/-- C7: the built chain's get_output_keys is the single-element list of
the configured output key, defaulting to the string output when the
output_key slot is unset. -/
theorem output_keys_single {μ : Type} (b : LLMChainBuilder μ) (c : LLMChain μ)
    (hb : b.build = Except.ok c) :
    (b.output_key = none → c.get_output_keys = [("output")]) ∧
    (∀ k, b.output_key = some k → c.get_output_keys = [k]) := by
  rcases hp : b.prompt with _ | p <;> rcases hl : b.llm with _ | l <;>
    simp [LLMChainBuilder.build, hp, hl] at hb
  subst hb
  constructor
  · intro h
    simp [LLMChain.get_output_keys, h]
  · intro k h
    simp [LLMChain.get_output_keys, h]

/-- The chain that the concrete witness builder evaluates to: the mock
formatter and model, the default output key and the default parser. -/
def builtChain : LLMChain Nat :=
  ⟨mockPrompter, plainLLM, "output", SimpleParser⟩

/-- Witness for C7 at a concrete build with the output_key slot unset:
get_output_keys evaluates to the singleton list of the string output. -/
theorem output_keys_single_witness :
    emptyB.output_key = none ∧ builtChain.get_output_keys = [("output")] :=
  ⟨rfl, (output_keys_single ((emptyB.set_prompt mockPrompter).set_llm plainLLM)
    builtChain rfl).1 rfl⟩

/-- C8: the built chain's get_input_keys equals the list of variable names
the formatter declares, in the same order; the chain holds no per-call
state, so this is independent of any arguments later passed. -/
theorem input_keys_from_formatter {μ : Type} (b : LLMChainBuilder μ)
    (c : LLMChain μ) (p : FormatPrompter)
    (hp : b.prompt = some p) (hb : b.build = Except.ok c) :
    c.get_input_keys = p.get_input_variables := by
  rcases hl : b.llm with _ | l <;>
    simp [LLMChainBuilder.build, hp, hl] at hb
  subst hb
  simp [LLMChain.get_input_keys]

/-- Witness for C8 at a concrete build: the chain built over the mock
formatter reports that formatter's declared variable list. -/
theorem input_keys_from_formatter_witness :
    builtChain.get_input_keys = ["nombre"] :=
  input_keys_from_formatter ((emptyB.set_prompt mockPrompter).set_llm plainLLM)
    builtChain mockPrompter rfl rfl

/-- A mock model client whose stream yields the given item list. -/
def streamLLM (items : List (Except LLMError StreamData)) : LLM Nat :=
  ⟨fun _ _ => Except.ok ⟨"abc", 7⟩, fun _ _ => Except.ok items, []⟩

/-- A mock chain over a model whose stream yields the given item list. -/
def streamChain (items : List (Except LLMError StreamData)) : LLMChain Nat :=
  ⟨mockPrompter, streamLLM items, "output", SimpleParser⟩

/-- C3: when formatting and the stream setup succeed, the sequence that
stream returns is the model's item sequence mapped item by item through
the error re-typing only: contents and order are identical, no item is
dropped, collapsed or parsed, and a failed item stays a failed item with
its error lifted into the chain taxonomy. -/
theorem stream_is_transparent {μ : Type} (c : LLMChain μ) (args : PromptArgs)
    (p : PromptValue) (items : List (Except LLMError StreamData))
    (hf : c.prompt.format_prompt args = Except.ok p)
    (hs : c.llm.stream p.to_chat_messages = Except.ok items) :
    c.stream args = Except.ok (items.map (Except.mapError ChainError.Model)) := by
  simp [LLMChain.stream, hf, hs, Except.mapError, Except.instMonad, Except.bind]

/-- Witness for C3 at concrete streams: a model emitting three items gives
exactly those three items in order, and a model failing after the first
item gives that item followed by the failure, re-typed. -/
theorem stream_is_transparent_witness :
    (streamChain [Except.ok ⟨"i1"⟩, Except.ok ⟨"i2"⟩, Except.ok ⟨"i3"⟩]).stream [] =
      Except.ok [Except.ok ⟨"i1"⟩, Except.ok ⟨"i2"⟩, Except.ok ⟨"i3"⟩] ∧
    (streamChain [Except.ok ⟨"i1"⟩, Except.error ("boom")]).stream [] =
      Except.ok [Except.ok ⟨"i1"⟩, Except.error (ChainError.Model ("boom"))] := by
  constructor
  · have h := stream_is_transparent
      (streamChain [Except.ok ⟨"i1"⟩, Except.ok ⟨"i2"⟩, Except.ok ⟨"i3"⟩]) []
      ⟨[]⟩ [Except.ok ⟨"i1"⟩, Except.ok ⟨"i2"⟩, Except.ok ⟨"i3"⟩] rfl rfl
    simpa [Except.mapError] using h
  · have h := stream_is_transparent
      (streamChain [Except.ok ⟨"i1"⟩, Except.error ("boom")]) []
      ⟨[]⟩ [Except.ok ⟨"i1"⟩, Except.error ("boom")] rfl rfl
    simpa [Except.mapError] using h

/-- A mock formatter that always fails to render. -/
def failPrompter : FormatPrompter :=
  ⟨["nombre"], fun _ => Except.error ("missing variable")⟩

/-- A mock model client whose stream setup fails. -/
def failSetupLLM : LLM Nat :=
  ⟨fun _ _ => Except.ok ⟨"abc", 7⟩, fun _ _ => Except.error ("setup failed"), []⟩

/-- C9: stream setup is eager: a formatting failure or a failure of the
model's initial stream setup makes stream return an error with no item
sequence at all, while a failure after earlier items appears as a failed
item of the returned sequence. -/
theorem stream_setup_failures_abort {μ : Type} (c : LLMChain μ)
    (args : PromptArgs) :
    (∀ e, c.prompt.format_prompt args = Except.error e →
      c.stream args = Except.error (ChainError.Format e)) ∧
    (∀ p e, c.prompt.format_prompt args = Except.ok p →
      c.llm.stream p.to_chat_messages = Except.error e →
      c.stream args = Except.error (ChainError.Model e)) ∧
    (∀ p pre e, c.prompt.format_prompt args = Except.ok p →
      c.llm.stream p.to_chat_messages = Except.ok (pre ++ [Except.error e]) →
      c.stream args = Except.ok (pre.map (Except.mapError ChainError.Model) ++
        [Except.error (ChainError.Model e)])) := by
  refine ⟨fun e hf => ?_, fun p e hf hs => ?_, fun p pre e hf hs => ?_⟩
  · simp [LLMChain.stream, hf, Except.mapError, Except.instMonad, Except.bind]
  · simp [LLMChain.stream, hf, hs, Except.mapError, Except.instMonad, Except.bind]
  · simp [LLMChain.stream, hf, hs, Except.mapError, Except.instMonad, Except.bind]

/-- Witness for C9 at concrete chains: a failing formatter aborts with a
Format error, a failing stream setup aborts with a Model error, and a
mid-stream failure after one item is yielded as a failed second item. -/
theorem stream_setup_failures_abort_witness :
    (LLMChain.stream ⟨failPrompter, plainLLM, "output", SimpleParser⟩ []) =
      Except.error (ChainError.Format ("missing variable")) ∧
    (LLMChain.stream ⟨mockPrompter, failSetupLLM, "output", SimpleParser⟩ []) =
      Except.error (ChainError.Model ("setup failed")) ∧
    (streamChain [Except.ok ⟨"he"⟩, Except.error ("cut")]).stream [] =
      Except.ok [Except.ok ⟨"he"⟩, Except.error (ChainError.Model ("cut"))] := by
  refine ⟨?_, ?_, ?_⟩
  · exact (stream_setup_failures_abort
      ⟨failPrompter, plainLLM, "output", SimpleParser⟩ []).1 ("missing variable") rfl
  · exact (stream_setup_failures_abort
      ⟨mockPrompter, failSetupLLM, "output", SimpleParser⟩ []).2.1 ⟨[]⟩
      ("setup failed") rfl rfl
  · have h := (stream_setup_failures_abort
      (streamChain [Except.ok ⟨"he"⟩, Except.error ("cut")]) []).2.2 ⟨[]⟩
      [Except.ok ⟨"he"⟩] ("cut") rfl rfl
    simpa [Except.mapError] using h

/-- C4: when formatting, the model and the parse succeed, call returns a
result whose generation field is exactly the parsed string and whose
every other field (the metadata, abstracted as meta) is exactly the one
of the model's result: only the generation field is replaced. -/
theorem call_preserves_metadata {μ : Type} (c : LLMChain μ)
    (args : PromptArgs) (p : PromptValue) (r : GenerateResult μ) (g : String)
    (hf : c.prompt.format_prompt args = Except.ok p)
    (hg : c.llm.generate p.to_chat_messages = Except.ok r)
    (hp : c.outputParser.parse r.generation = Except.ok g) :
    c.call args = Except.ok { generation := g, meta := r.meta } := by
  simp [LLMChain.call, hf, hg, hp, Except.mapError, Except.instMonad,
    Except.bind]

/-- A mock parse capability that replaces any output with the string OK. -/
def okProc : OutputParser String :=
  ⟨fun _ => Except.ok ("OK")⟩

/-- A mock chain whose model returns the string ignored with seven tokens
of metadata and whose parse capability replaces the output with OK. -/
def metaChain : LLMChain Nat :=
  ⟨mockPrompter, mockLLM ⟨"ignored", 7⟩, "output", okProc⟩

/-- Witness for C4 at a concrete chain: the model returns generation
ignored with token count seven, the parse returns OK, and call returns
generation OK with the token count still seven. -/
theorem call_preserves_metadata_witness :
    metaChain.call [] = Except.ok ⟨"OK", 7⟩ :=
  call_preserves_metadata metaChain [] ⟨[]⟩ ⟨"ignored", 7⟩ ("OK") rfl rfl rfl

/-- C5: when the builder's parser slot is unset, the built chain carries
the default identity parser, so for any generation string the model
returns, call succeeds with the model's result unchanged. -/
theorem default_parse_is_identity {μ : Type} (b : LLMChainBuilder μ)
    (c : LLMChain μ) (args : PromptArgs) (p : PromptValue)
    (r : GenerateResult μ)
    (hnp : b.outputParser = none) (hb : b.build = Except.ok c)
    (hf : c.prompt.format_prompt args = Except.ok p)
    (hg : c.llm.generate p.to_chat_messages = Except.ok r) :
    c.call args = Except.ok r := by
  rcases hpr : b.prompt with _ | pr <;> rcases hl : b.llm with _ | l <;>
    simp [LLMChainBuilder.build, hpr, hl] at hb
  have hparse : c.outputParser = SimpleParser := by
    rw [← hb]
    simp [hnp]
  rcases r with ⟨gen, m⟩
  simp [LLMChain.call, hf, hg, hparse, SimpleParser, Except.mapError,
    Except.instMonad, Except.bind]

/-- Witness for C5 at a concrete build with the parser slot unset: the
built chain returns the model's result unchanged, generation included. -/
theorem default_parse_is_identity_witness :
    builtChain.call [] = Except.ok ⟨"abc", 7⟩ :=
  default_parse_is_identity ((emptyB.set_prompt mockPrompter).set_llm plainLLM)
    builtChain [] ⟨[]⟩ ⟨"abc", 7⟩ rfl rfl rfl rfl

/-- C6: when the prompt and llm slots are set, supplying call options to
the builder makes build return a chain whose model client has had exactly
one further options value folded in, the converted options, before the
chain (and hence any call) exists; with no options supplied the model
client is carried over exactly as provided. -/
theorem options_folded_at_build {μ : Type} (b : LLMChainBuilder μ)
    (p : FormatPrompter) (l : LLM μ)
    (hp : b.prompt = some p) (hl : b.llm = some l) :
    (∀ o, b.options = some o → ∃ c, b.build = Except.ok c ∧
      c.llm.applied_options =
        l.applied_options ++ [ChainCallOptions.to_llm_options o]) ∧
    (b.options = none → ∃ c, b.build = Except.ok c ∧ c.llm = l) := by
  constructor
  · intro o ho
    have hb : b.build = Except.ok
        { prompt := p
          llm := l.add_options (ChainCallOptions.to_llm_options o)
          output_key := b.output_key.getD ("output")
          outputParser := b.outputParser.getD SimpleParser } := by
      simp [LLMChainBuilder.build, hp, hl, ho]
    exact ⟨_, hb, by simp [LLM.add_options]⟩
  · intro ho
    have hb : b.build = Except.ok
        { prompt := p
          llm := l
          output_key := b.output_key.getD ("output")
          outputParser := b.outputParser.getD SimpleParser } := by
      simp [LLMChainBuilder.build, hp, hl, ho]
    exact ⟨_, hb, rfl⟩

/-- The concrete builder of the options witness, carrying one temperature
tunable. -/
def optB : LLMChainBuilder Nat :=
  ((emptyB.set_prompt mockPrompter).set_llm plainLLM).set_options
    ⟨[("temperature", "0.2")]⟩

/-- Witness for C6 at concrete builders: with options supplied the built
chain's model client records exactly the one converted options value, and
with no options supplied the model client is exactly the one provided. -/
theorem options_folded_at_build_witness :
    Except.map (fun c => c.llm.applied_options) optB.build =
      Except.ok [ChainCallOptions.to_llm_options ⟨[("temperature", "0.2")]⟩] ∧
    Except.map (fun c => c.llm)
        ((emptyB.set_prompt mockPrompter).set_llm plainLLM).build =
      Except.ok plainLLM := by
  constructor
  · refine Exists.elim ((options_folded_at_build optB mockPrompter plainLLM
      rfl rfl).1 ⟨[("temperature", "0.2")]⟩ rfl) (fun c hc => ?_)
    rw [hc.1]
    simp [Except.map, hc.2, plainLLM, mockLLM]
  · refine Exists.elim ((options_folded_at_build
      ((emptyB.set_prompt mockPrompter).set_llm plainLLM) mockPrompter plainLLM
      rfl rfl).2 rfl) (fun c hc => ?_)
    rw [hc.1]
    simp [Except.map, hc.2]

/-- C10: every builder setter overwrites the value previously stored in
its slot (the last value supplied wins), and setters addressing distinct
slots commute, so the built chain depends only on the final slot
contents. -/
theorem setters_overwrite_and_commute {μ : Type} (b : LLMChainBuilder μ)
    (p p1 p2 : FormatPrompter) (l l1 l2 : LLM μ) (k k1 k2 : String)
    (o o1 o2 : ChainCallOptions) (q q1 q2 : OutputParser String) :
    ((b.set_prompt p1).set_prompt p2 = b.set_prompt p2) ∧
    ((b.set_llm l1).set_llm l2 = b.set_llm l2) ∧
    ((b.set_output_key k1).set_output_key k2 = b.set_output_key k2) ∧
    ((b.set_options o1).set_options o2 = b.set_options o2) ∧
    ((b.set_outputParser q1).set_outputParser q2 = b.set_outputParser q2) ∧
    ((b.set_prompt p).set_llm l = (b.set_llm l).set_prompt p) ∧
    ((b.set_prompt p).set_output_key k = (b.set_output_key k).set_prompt p) ∧
    ((b.set_prompt p).set_options o = (b.set_options o).set_prompt p) ∧
    ((b.set_prompt p).set_outputParser q =
      (b.set_outputParser q).set_prompt p) ∧
    ((b.set_llm l).set_output_key k = (b.set_output_key k).set_llm l) ∧
    ((b.set_llm l).set_options o = (b.set_options o).set_llm l) ∧
    ((b.set_llm l).set_outputParser q = (b.set_outputParser q).set_llm l) ∧
    ((b.set_output_key k).set_options o =
      (b.set_options o).set_output_key k) ∧
    ((b.set_output_key k).set_outputParser q =
      (b.set_outputParser q).set_output_key k) ∧
    ((b.set_options o).set_outputParser q =
      (b.set_outputParser q).set_options o) :=
  ⟨rfl, rfl, rfl, rfl, rfl, rfl, rfl, rfl, rfl, rfl, rfl, rfl, rfl, rfl, rfl⟩
